import Mathlib

/-!
Verification development for the navigation test-vector generator
`tools/sv_elev_azim.py`.

Modelling conventions:
* Python runtime exceptions are modelled with `Except PyErr`; the script
  installs no exception handler, so in the driver model every error
  propagates by monadic bind.
* Python `datetime` values are modelled as integer microseconds since
  1970-01-01 (Python `datetime`/`timedelta` arithmetic is exact at
  microsecond resolution).
* Numeric field values are modelled as either NaN or an exact rational.
* A record (`kepler` dict in the script) is an association list from field
  name to value; the driver builds records with pairwise-distinct keys.
-/

/-- Python runtime errors that the script can raise. -/
inductive PyErr where
  | nameErr
  | indexErr
  | keyErr
  | valueErr
  | typeErr
  | ioErr
  | compErr
deriving DecidableEq, Repr

/-- Constellations the script distinguishes; `sv_to_constell` in the source
returns the strings "GPS", "GAL", "BDT", "QZSS" (or `None`). -/
inductive Constellation where
  | GPS
  | GAL
  | BDT
  | QZSS
deriving DecidableEq, Repr

/-- Value of one record field: NaN or an exact number (Python floats are
modelled as rationals). -/
inductive PVal where
  | nan
  | num (q : ℚ)
deriving DecidableEq, Repr

/-- Field mapping of one (epoch, satellite) record, the `kepler` dict. -/
abbrev KRecord := List (String × PVal)

/-- ECEF 3-vector. -/
abbrev Q3 := ℚ × ℚ × ℚ

/-- Dictionary lookup `r[k]` on the association-list model (first binding
wins; records built by the driver have distinct keys). -/
def lookupF (r : KRecord) (k : String) : Option PVal :=
  match r with
  | [] => none
  | (k0, v) :: rest => if k0 == k then some v else lookupF rest k

/-- Python `math.isnan` on a field value. -/
def pvIsNan : PVal → Bool
  | PVal.nan => true
  | PVal.num _ => false

/-- Python `math.pow(x, 2)`: squaring; NaN squares to NaN. -/
def pvPow2 : PVal → PVal
  | PVal.nan => PVal.nan
  | PVal.num q => PVal.num (q * q)

/-- Python `int(x)` on a float: truncation toward zero. -/
def ratTrunc (q : ℚ) : Int :=
  Int.sign q.num * ((q.num.natAbs / q.den : Nat) : Int)

/-- Canonical field list `gr_kepler_fields` of the script (lines 16-36). -/
def gr_kepler_fields : List String :=
  ["GPSWeek", "BDTWeek", "GALWeek", "Toe", "Eccentricity", "sqrtA",
   "Cic", "Crc", "Cis", "Crs", "Cuc", "Cus", "DeltaN", "Omega0",
   "omega", "Io", "OmegaDot", "IDOT", "M0"]

/-- Leading-segment test on character lists (helper for substring search). -/
def charsHasPre : List Char → List Char → Bool
  | [], _ => true
  | _ :: _, [] => false
  | a :: ps, b :: ls => a == b && charsHasPre ps ls

/-- Substring occurrence test on character lists. -/
def charsHasSub (p : List Char) : List Char → Bool
  | [] => p.isEmpty
  | b :: ls => charsHasPre p (b :: ls) || charsHasSub p ls

/-- Python `pat in s` substring containment on strings. -/
def strHasSub (pat s : String) : Bool :=
  charsHasSub pat.data s.data

/-- Evaluates `sv[0]`; an empty identifier raises IndexError in Python. -/
def sv_first (sv : String) : Except PyErr Char :=
  match sv.data with
  | [] => Except.error PyErr.indexErr
  | c :: _ => Except.ok c

/-- Source line 44: `sv[0] == 'R'`. -/
def sv_is_glonass (sv : String) : Except PyErr Bool :=
  (sv_first sv).map (fun c => c == 'R')

/-- Source line 47: `sv[0] == 'E'`. -/
def sv_is_galileo (sv : String) : Except PyErr Bool :=
  (sv_first sv).map (fun c => c == 'E')

/-- Source line 50: `sv[0] == 'G'`. -/
def sv_is_gps (sv : String) : Except PyErr Bool :=
  (sv_first sv).map (fun c => c == 'G')

/-- Source line 53: `sv[0] == 'C'`. -/
def sv_is_beidou (sv : String) : Except PyErr Bool :=
  (sv_first sv).map (fun c => c == 'C')

/-- Source line 56: `sv[0] == 'S'`. -/
def sv_is_sbas (sv : String) : Except PyErr Bool :=
  (sv_first sv).map (fun c => c == 'S')

/-- Classifier `sv_to_constell` (source lines 59-69): decision is solely the
identifier's first character. -/
def sv_to_constell (sv : String) : Except PyErr (Option Constellation) := do
  let c ← sv_first sv
  if c == 'G' then pure (some Constellation.GPS)
  else if c == 'E' then pure (some Constellation.GAL)
  else if c == 'C' then pure (some Constellation.BDT)
  else if c == 'J' then pure (some Constellation.QZSS)
  else pure none

/-- Microseconds per day. -/
def usPerDay : Int := 86400000000

/-- Microseconds per week; `timedelta(weeks=w)` adds `w * usPerWeek`. -/
def usPerWeek : Int := 7 * usPerDay

/-- Gregorian leap-year rule. -/
def isLeapYear (y : Int) : Bool :=
  (y % 4 == 0 && y % 100 != 0) || (y % 400 == 0)

/-- Length of a calendar year in days. -/
def daysInYear (y : Int) : Int :=
  if isLeapYear y then 366 else 365

/-- Python `datetime(1980, 1, 6)` in microseconds since 1970-01-01: the days
of the years 1970-1979 plus the five days from Jan 1 to Jan 6. -/
def datetime19800106 : Int :=
  (((List.range 10).map (fun i => daysInYear (1970 + (i : Int)))).sum + 5) * usPerDay

/-- Time-scale origin lookup `timescale_t0` (source lines 71-81).  After the
GPS, BeiDou and Galileo tests fail, the source evaluates `sv_is_qzss(sv)`,
a name that is defined nowhere in the script, so Python raises NameError
there; the QZSS branch `return datetime(1980, 1, 6)` and the final
`return None  # will not happen` are unreachable. -/
def timescale_t0 (sv : String) : Except PyErr (Option Int) := do
  if (← sv_is_gps sv) then pure (some datetime19800106)
  else if (← sv_is_beidou sv) then pure (some datetime19800106)
  else if (← sv_is_galileo sv) then pure (some datetime19800106)
  else Except.error PyErr.nameErr

/-- Validator helper `kepler_hasnan` (source lines 117-121): does any field
of the record hold NaN. -/
def kepler_hasnan (r : KRecord) : Bool :=
  r.any (fun kv => pvIsNan kv.2)

/-- Fixed probe order of `kepler_weekcounter` (source line 124). -/
def weekKeyOrder : List String := ["GPSWeek", "GALWeek", "BDTWeek"]

/-- Loop body of `kepler_weekcounter`: first present key wins; `int(...)` on
a NaN value raises ValueError. -/
def weekcounterGo (r : KRecord) : List String → Except PyErr (Option Int)
  | [] => Except.ok none
  | k :: ks =>
    match lookupF r k with
    | some (PVal.num q) => Except.ok (some (ratTrunc q))
    | some PVal.nan => Except.error PyErr.valueErr
    | none => weekcounterGo r ks

/-- Week-counter resolver `kepler_weekcounter` (source lines 123-127). -/
def kepler_weekcounter (r : KRecord) : Except PyErr (Option Int) :=
  weekcounterGo r weekKeyOrder

/-- Source lines 129-130: `kepler_weekcounter(kepler) is not None`. -/
def kepler_has_weekcounter (r : KRecord) : Except PyErr Bool :=
  (kepler_weekcounter r).map (fun o => o.isSome)

/-- Readiness predicate `kepler_ready` (source lines 132-141): reject on any
NaN, then on a missing week counter, then on any missing non-week field of
the canonical list (`if not "Week" in key`). -/
def kepler_ready (r : KRecord) : Except PyErr Bool :=
  if kepler_hasnan r then Except.ok false
  else
    match kepler_has_weekcounter r with
    | Except.error e => Except.error e
    | Except.ok hw =>
      if !hw then Except.ok false
      else Except.ok (gr_kepler_fields.all (fun k => strHasSub "Week" k || (lookupF r k).isSome))

/-- Intra-week offset of source lines 198-200: the raw recording epoch minus
the origin and the week count. -/
def withinWeekOffset (epoch t0 weeks : Int) : Int :=
  epoch - t0 - weeks * usPerWeek

/-- Resolved GNSS epoch `tgnss` of source lines 194-201: origin plus whole
weeks plus the intra-week offset. -/
def resolveEpoch (t0 weeks offset : Int) : Int :=
  t0 + weeks * usPerWeek + offset

/-- One serialized output entry, the fields written by `form_entry`
(source lines 83-115) in writing order. -/
structure Entry where
  epoch : Int
  prn : Int
  constell : Option Constellation
  week : Int
  ref_pos : Q3
  ecef : Q3
  elev : ℚ
  azi : ℚ
  a : PVal
  e : PVal
  i_0 : PVal
  omega_0 : PVal
  m_0 : PVal
  omega : PVal
  toe : PVal
  dn : PVal
  i_dot : PVal
  omega_dot : PVal
  cus : PVal
  cuc : PVal
  cis : PVal
  cic : PVal
  crs : PVal
  crc : PVal
deriving DecidableEq, Repr

/-- Digit accumulator for decimal parsing. -/
def parseNatGo (acc : Nat) : List Char → Option Nat
  | [] => some acc
  | c :: cs => if c.isDigit then parseNatGo (acc * 10 + (c.toNat - 48)) cs else none

/-- Python `int` on a decimal string (optional leading minus sign). -/
def parseIntChars : List Char → Option Int
  | [] => none
  | '-' :: rest =>
    match rest with
    | [] => none
    | _ => (parseNatGo 0 rest).map (fun n => -(n : Int))
  | cs => (parseNatGo 0 cs).map (fun n => (n : Int))

/-- Python `int(sv[1:])` of source line 87; ValueError on a non-numeric PRN
suffix. -/
def parsePrn (sv : String) : Except PyErr Int :=
  match parseIntChars (sv.data.drop 1) with
  | some n => Except.ok n
  | none => Except.error PyErr.valueErr

/-- Dictionary access `kepler[k]`; KeyError when the field is absent. -/
def getK (r : KRecord) (k : String) : Except PyErr PVal :=
  match lookupF r k with
  | some v => Except.ok v
  | none => Except.error PyErr.keyErr

/-- Serializer `form_entry` (source lines 83-115) modelled as the structured
value it writes: the PRN from `int(sv[1:])`, the constellation from
`sv_to_constell(sv[0])`, the week from `int(kepler_weekcounter(kepler))`
(line 90; `int(None)` would raise TypeError), then the Keplerian block with
`a = math.pow(kepler["sqrtA"], 2)` (line 96) and the perturbation block with
`dn = math.pow(kepler["DeltaN"], 2)` (line 105); all other fields are
written unchanged. -/
def form_entry (epoch : Int) (sv : String) (ref_pos : Q3) (ecef : Q3)
    (elev azi : ℚ) (kepler : KRecord) : Except PyErr Entry := do
  let prn ← parsePrn sv
  let c0 ← sv_first sv
  let constell ← sv_to_constell (String.singleton c0)
  let wOpt ← kepler_weekcounter kepler
  let week ← match wOpt with
    | some w => Except.ok w
    | none => Except.error PyErr.typeErr
  let vA ← getK kepler "sqrtA"
  let vE ← getK kepler "Eccentricity"
  let vI0 ← getK kepler "Io"
  let vOm0 ← getK kepler "Omega0"
  let vM0 ← getK kepler "M0"
  let vOm ← getK kepler "omega"
  let vToe ← getK kepler "Toe"
  let vDn ← getK kepler "DeltaN"
  let vIdot ← getK kepler "IDOT"
  let vOmdot ← getK kepler "OmegaDot"
  let vCus ← getK kepler "Cus"
  let vCuc ← getK kepler "Cuc"
  let vCis ← getK kepler "Cis"
  let vCic ← getK kepler "Cic"
  let vCrs ← getK kepler "Crs"
  let vCrc ← getK kepler "Crc"
  Except.ok ⟨epoch, prn, constell, week, ref_pos, ecef, elev, azi,
    pvPow2 vA, vE, vI0, vOm0, vM0, vOm, vToe,
    pvPow2 vDn, vIdot, vOmdot, vCus, vCuc, vCis, vCic, vCrs, vCrc⟩

/-- Reference position for an input file (source line 161): the script
assigns the same literal tuple for every file; the file name is ignored
(there is no lookup table in the code). -/
def ref_position (_fp : String) : Q3 :=
  ((36284279118 : ℚ) / 10000, (5620590936 : ℚ) / 10000, (51978722150 : ℚ) / 10000)

/-- Record construction of source lines 179-183: copy every canonical field
that the ephemeris data offers for this (epoch, satellite). -/
def buildKepler (raw : KRecord) : KRecord :=
  gr_kepler_fields.filterMap (fun f =>
    match lookupF raw f with
    | some v => some (f, v)
    | none => none)

/-- Supported revision subdirectories (source line 149). -/
def supported_rev : List String := ["V2", "V3"]

/-- Environment of one navigation file as supplied by the external
collaborators: `openResult` is the outcome of `open(txt_path, "w")`,
`raw` the per-(epoch, satellite) field mappings served by `gr.load`/`sel`,
and `ecefTab` the outcome of the external `gr.keplerian2ecef` propagation
for each (epoch, satellite). -/
structure FileEnv where
  name : String
  openResult : Except PyErr Unit
  epochs : List Int
  svs : List String
  raw : List ((Int × String) × KRecord)
  ecefTab : List ((Int × String) × Except PyErr Q3)

/-- Lookup in a per-(epoch, satellite) table. -/
def lookupPair {α : Type} (tab : List ((Int × String) × α)) (epoch : Int)
    (sv : String) : Option α :=
  match tab with
  | [] => none
  | ((e0, s0), v) :: rest =>
    if e0 == epoch && s0 == sv then some v else lookupPair rest epoch sv

/-- Processing of one (epoch, satellite) pair, source lines 169-229: skip
GLONASS, SBAS and unclassified satellites; build the record; if ready,
resolve the week count and time scale, run the external propagation and
form the entry.  `none` means the pair was skipped; every Python exception
propagates (the script has no try/except). -/
def processSv (f : FileEnv) (epoch : Int) (sv : String) :
    Except PyErr (Option Entry) := do
  if (← sv_is_glonass sv) then pure none
  else if (← sv_is_sbas sv) then pure none
  else
    match (← sv_to_constell sv) with
    | none => pure none
    | some _ => do
      let raw := (lookupPair f.raw epoch sv).getD []
      let kepler := buildKepler raw
      if !(← kepler_ready kepler) then pure none
      else do
        let weeks ← match (← kepler_weekcounter kepler) with
          | some w => Except.ok w
          | none => Except.error PyErr.typeErr
        let t0 ← match (← timescale_t0 sv) with
          | some t => Except.ok t
          | none => Except.error PyErr.typeErr
        let _tgnss := resolveEpoch t0 weeks (withinWeekOffset epoch t0 weeks)
        let ecef ← (lookupPair f.ecefTab epoch sv).getD (Except.error PyErr.compErr)
        let ent ← form_entry epoch sv (ref_position f.name) ecef 0 0 kepler
        pure (some ent)

/-- Inner satellite loop of source line 169. -/
def processSvs (f : FileEnv) (epoch : Int) : List String → Except PyErr (List Entry)
  | [] => Except.ok []
  | sv :: rest => do
    let e ← processSv f epoch sv
    let tail ← processSvs f epoch rest
    match e with
    | some ent => Except.ok (ent :: tail)
    | none => Except.ok tail

/-- Outer epoch loop of source line 167. -/
def processEpochs (f : FileEnv) : List Int → Except PyErr (List Entry)
  | [] => Except.ok []
  | e :: rest => do
    let here ← processSvs f e f.svs
    let tail ← processEpochs f rest
    Except.ok (here ++ tail)

/-- Processing of one navigation file (source lines 159-236): open the
output stream, then run all epochs; the result pairs the file name with
its emitted entries. -/
def processFile (f : FileEnv) : Except PyErr (String × List Entry) := do
  let _ ← f.openResult
  let entries ← processEpochs f f.epochs
  Except.ok (f.name, entries)

/-- File loop of source line 154. -/
def processFiles : List FileEnv → Except PyErr (List (String × List Entry))
  | [] => Except.ok []
  | f :: fs => do
    let o ← processFile f
    let rest ← processFiles fs
    Except.ok (o :: rest)

/-- Revision loop of source lines 151-153: subdirectories outside
`supported_rev` are skipped with `continue`. -/
def runRevs : List (String × List FileEnv) → Except PyErr (List (String × List Entry))
  | [] => Except.ok []
  | (rev, fs) :: rest =>
    if rev ∈ supported_rev then do
      let o ← processFiles fs
      let r ← runRevs rest
      Except.ok (o ++ r)
    else runRevs rest

/-! ### Helper lemmas -/

instance {ε α : Type} [DecidableEq ε] [DecidableEq α] : DecidableEq (Except ε α) := fun x y =>
  match x, y with
  | Except.ok a, Except.ok b =>
    if h : a = b then isTrue (by rw [h])
    else isFalse (by intro hh; injection hh; contradiction)
  | Except.ok _, Except.error _ => isFalse (by intro hh; exact Except.noConfusion hh)
  | Except.error _, Except.ok _ => isFalse (by intro hh; exact Except.noConfusion hh)
  | Except.error e, Except.error f =>
    if h : e = f then isTrue (by rw [h])
    else isFalse (by intro hh; injection hh; contradiction)

theorem bind_ok_eq {α β : Type} (a : α) (f : α → Except PyErr β) :
    (Bind.bind (Except.ok a) f : Except PyErr β) = f a := rfl

theorem bind_err_eq {α β : Type} (e : PyErr) (f : α → Except PyErr β) :
    (Bind.bind (Except.error e) f : Except PyErr β) = Except.error e := rfl

theorem lookupF_mem {r : KRecord} {k : String} {v : PVal}
    (h : lookupF r k = some v) : (k, v) ∈ r := by
  induction r with
  | nil => simp [lookupF] at h
  | cons kv rest ih =>
    obtain ⟨k0, w⟩ := kv
    by_cases hk : (k0 == k) = true
    · rw [lookupF, if_pos hk] at h
      obtain rfl : w = v := by injection h
      obtain rfl : k0 = k := by simpa using hk
      exact List.mem_cons_self _ _
    · rw [lookupF, if_neg hk] at h
      exact List.mem_cons_of_mem _ (ih h)

theorem hasnan_false_lookup {r : KRecord} {k : String} {v : PVal}
    (hn : kepler_hasnan r = false) (hv : lookupF r k = some v) :
    pvIsNan v = false := by
  have hmem := lookupF_mem hv
  by_contra hne
  have : kepler_hasnan r = true := by
    refine List.any_eq_true.mpr ⟨(k, v), hmem, ?_⟩
    simpa using hne
  rw [this] at hn
  exact Bool.noConfusion hn

theorem weekcounterGo_of_hasnan_false {r : KRecord}
    (hn : kepler_hasnan r = false) :
    ∀ ks : List String, ∃ o, weekcounterGo r ks = Except.ok o ∧
      o.isSome = ks.any (fun k => (lookupF r k).isSome) := by
  intro ks
  induction ks with
  | nil => exact ⟨none, rfl, rfl⟩
  | cons k ks ih =>
    cases hv : lookupF r k with
    | none =>
      obtain ⟨o, h1, h2⟩ := ih
      refine ⟨o, ?_, ?_⟩
      · rw [weekcounterGo, hv]; exact h1
      · simp [List.any_cons, hv, h2]
    | some v =>
      cases v with
      | nan =>
        have := hasnan_false_lookup hn hv
        simp [pvIsNan] at this
      | num q =>
        refine ⟨some (ratTrunc q), ?_, ?_⟩
        · rw [weekcounterGo, hv]
        · simp [List.any_cons, hv]

/-! ### Concrete test records and file environments -/

/-- Record with every required non-week field present and numeric. -/
def nonWeekVals : KRecord :=
  [("Toe", PVal.num 1), ("Eccentricity", PVal.num 2), ("sqrtA", PVal.num 3),
   ("Cic", PVal.num 4), ("Crc", PVal.num 5), ("Cis", PVal.num 6),
   ("Crs", PVal.num 7), ("Cuc", PVal.num 8), ("Cus", PVal.num 9),
   ("DeltaN", PVal.num 10), ("Omega0", PVal.num 11), ("omega", PVal.num 12),
   ("Io", PVal.num 13), ("OmegaDot", PVal.num 14), ("IDOT", PVal.num 15),
   ("M0", PVal.num 16)]

/-- Complete record that carries only the Galileo week counter. -/
def recGALonly : KRecord := ("GALWeek", PVal.num 100) :: nonWeekVals

/-- Complete record with the GPS week counter. -/
def recFull : KRecord := ("GPSWeek", PVal.num 2100) :: nonWeekVals

/-- Complete record spoiled by a NaN value. -/
def recWithNan : KRecord := ("Toe", PVal.nan) :: recFull

/-- Record with the GPS week counter but the required field "Toe" missing. -/
def recMissingToe : KRecord :=
  [("GPSWeek", PVal.num 2100),
   ("Eccentricity", PVal.num 2), ("sqrtA", PVal.num 3),
   ("Cic", PVal.num 4), ("Crc", PVal.num 5), ("Cis", PVal.num 6),
   ("Crs", PVal.num 7), ("Cuc", PVal.num 8), ("Cus", PVal.num 9),
   ("DeltaN", PVal.num 10), ("Omega0", PVal.num 11), ("omega", PVal.num 12),
   ("Io", PVal.num 13), ("OmegaDot", PVal.num 14), ("IDOT", PVal.num 15),
   ("M0", PVal.num 16)]

/-- Healthy navigation file with one ready GPS record. -/
def fileGood : FileEnv :=
  ⟨"B", Except.ok (), [100], ["G05"], [((100, "G05"), recFull)],
   [((100, "G05"), Except.ok (4, 5, 6))]⟩

/-- Same data, but opening the output stream fails. -/
def fileOpenFail : FileEnv :=
  ⟨"A", Except.error PyErr.ioErr, [100], ["G05"], [((100, "G05"), recFull)],
   [((100, "G05"), Except.ok (4, 5, 6))]⟩

/-- Same data, but the external propagation routine fails. -/
def fileCompFail : FileEnv :=
  ⟨"A", Except.ok (), [100], ["G05"], [((100, "G05"), recFull)],
   [((100, "G05"), Except.error PyErr.compErr)]⟩

/-! ### Claim C1 -/

/-- C1 counterexample: the claim says `isReady` rejects a record whenever the
week-counter field specific to the satellite's constellation is absent.  For
constellation GPS (week field "GPSWeek") the record `recGALonly` lacks
"GPSWeek" and carries only the Galileo week field, yet `kepler_ready`
accepts it: readiness never consults the constellation. -/
theorem claim_C1_counterexample :
    sv_to_constell "G05" = Except.ok (some Constellation.GPS) ∧
    lookupF recGALonly "GPSWeek" = none ∧
    kepler_ready recGALonly = Except.ok true := by
  refine ⟨by decide, by decide, by decide⟩

/-- C1 amended: the readiness predicate is constellation-independent.  A
record is ready iff no field is NaN, at least one of the three week-counter
fields "GPSWeek"/"GALWeek"/"BDTWeek" is present (any constellation's), and
every non-week field of the canonical list is present. -/
theorem claim_C1_amended :
    ∀ r : KRecord, kepler_ready r = Except.ok true ↔
      (kepler_hasnan r = false ∧
       weekKeyOrder.any (fun k => (lookupF r k).isSome) = true ∧
       gr_kepler_fields.all (fun k => strHasSub "Week" k || (lookupF r k).isSome) = true) := by
  intro r
  by_cases hn : kepler_hasnan r
  · simp [kepler_ready, hn]
  · rw [Bool.not_eq_true] at hn
    obtain ⟨o, ho, hs⟩ := weekcounterGo_of_hasnan_false hn weekKeyOrder
    have hwk : kepler_has_weekcounter r = Except.ok o.isSome := by
      rw [kepler_has_weekcounter, kepler_weekcounter, ho]
      rfl
    rw [kepler_ready, if_neg (by simp [hn]), hwk]
    cases ha : weekKeyOrder.any (fun k => (lookupF r k).isSome) with
    | false =>
      rw [ha] at hs
      simp [hs, hn]
    | true =>
      rw [ha] at hs
      simp [hs, hn]

/-! ### Claim C5 -/

/-- C5: a NaN anywhere in the record makes `kepler_ready` reject it, and a
missing non-week field of the canonical list makes `kepler_ready` reject it
regardless of the other fields. -/
theorem claim_C5 :
    ∀ r : KRecord,
      (kepler_hasnan r = true → kepler_ready r = Except.ok false) ∧
      (∀ k : String, k ∈ gr_kepler_fields → strHasSub "Week" k = false →
        lookupF r k = none → kepler_ready r = Except.ok false) := by
  intro r
  constructor
  · intro h
    rw [kepler_ready, if_pos h]
  · intro k hk hsub hnone
    by_cases hn : kepler_hasnan r
    · rw [kepler_ready, if_pos hn]
    · rw [Bool.not_eq_true] at hn
      obtain ⟨o, ho, hs⟩ := weekcounterGo_of_hasnan_false hn weekKeyOrder
      have hwk : kepler_has_weekcounter r = Except.ok o.isSome := by
        rw [kepler_has_weekcounter, kepler_weekcounter, ho]
        rfl
      rw [kepler_ready, if_neg (by simp [hn]), hwk]
      cases hos : o.isSome with
      | false => simp
      | true =>
        cases hall : gr_kepler_fields.all (fun k => strHasSub "Week" k || (lookupF r k).isSome) with
        | false => simp [hall]
        | true =>
          have := List.all_eq_true.mp hall k hk
          rw [hsub, hnone] at this
          simp at this

/-- C5 witness: evaluation of the two rejection modes on concrete records. -/
theorem claim_C5_witness :
    kepler_ready recWithNan = Except.ok false ∧
    kepler_ready recMissingToe = Except.ok false :=
  ⟨(claim_C5 recWithNan).1 (by decide),
   (claim_C5 recMissingToe).2 "Toe" (by decide) (by decide) (by decide)⟩

/-! ### Claim C6 -/

/-- C6: the classifier depends only on the first character of the satellite
identifier, realizes exactly the mapping G to GPS, E to Galileo, C to BeiDou,
J to QZSS and the unsupported sentinel for R, S and every other character,
and is deterministic. -/
theorem claim_C6 :
    (∀ (c : Char) (r1 r2 : List Char),
       sv_to_constell (String.mk (c :: r1)) = sv_to_constell (String.mk (c :: r2))) ∧
    (∀ r : List Char, sv_to_constell (String.mk ('G' :: r)) = Except.ok (some Constellation.GPS)) ∧
    (∀ r : List Char, sv_to_constell (String.mk ('E' :: r)) = Except.ok (some Constellation.GAL)) ∧
    (∀ r : List Char, sv_to_constell (String.mk ('C' :: r)) = Except.ok (some Constellation.BDT)) ∧
    (∀ r : List Char, sv_to_constell (String.mk ('J' :: r)) = Except.ok (some Constellation.QZSS)) ∧
    (∀ r : List Char, sv_to_constell (String.mk ('R' :: r)) = Except.ok none) ∧
    (∀ r : List Char, sv_to_constell (String.mk ('S' :: r)) = Except.ok none) ∧
    (∀ (c : Char) (r : List Char), c ∉ (['G', 'E', 'C', 'J'] : List Char) →
       sv_to_constell (String.mk (c :: r)) = Except.ok none) ∧
    (∀ sv : String, sv_to_constell sv = sv_to_constell sv) := by
  refine ⟨fun c r1 r2 => rfl, fun r => rfl, fun r => rfl, fun r => rfl, fun r => rfl,
    fun r => rfl, fun r => rfl, ?_, fun sv => rfl⟩
  intro c r h
  obtain ⟨h1, h2, h3, h4⟩ : c ≠ 'G' ∧ c ≠ 'E' ∧ c ≠ 'C' ∧ c ≠ 'J' := by
    simpa [not_or] using h
  simp [sv_to_constell, sv_first, Bind.bind, Except.bind, Pure.pure, Except.pure,
    h1, h2, h3, h4]

/-- C6 witness: the unsupported branch applied at the concrete characters
'R' and 'X'. -/
theorem claim_C6_witness :
    sv_to_constell (String.mk ['X', '0', '1']) = Except.ok none :=
  claim_C6.2.2.2.2.2.2.2.1 'X' ['0', '1'] (by decide)

/-! ### Claim C2 -/

/-- C2 evaluation at the failing input: "J01" classifies as the supported
constellation QZSS, yet `timescale_t0` raises NameError on it, because the
script calls the undefined name `sv_is_qzss`.  For GPS, Galileo and BeiDou
satellites the lookup does return the shared origin January 6, 1980 (whose
microsecond encoding is 3657 days after 1970-01-01). -/
theorem claim_C2_eval :
    sv_to_constell "J01" = Except.ok (some Constellation.QZSS) ∧
    timescale_t0 "J01" = Except.error PyErr.nameErr ∧
    timescale_t0 "G01" = Except.ok (some datetime19800106) ∧
    timescale_t0 "E12" = Except.ok (some datetime19800106) ∧
    timescale_t0 "C05" = Except.ok (some datetime19800106) ∧
    datetime19800106 = 3657 * usPerDay := by
  refine ⟨by decide, by decide, by decide, by decide, by decide, by decide⟩

/-! ### Claim C3 -/

/-- C3: for every satellite whose origin lookup succeeds, the resolved epoch
is origin plus weekCount whole weeks plus the intra-week offset, it advances
by exactly 7 days when the week count increases by 1 with the offset fixed,
and with the offset derived from a raw recording epoch the resolution
reproduces that epoch. -/
theorem claim_C3 :
    ∀ (sv : String) (t0 weeks offset : Int),
      timescale_t0 sv = Except.ok (some t0) →
      (resolveEpoch t0 (weeks + 1) offset = resolveEpoch t0 weeks offset + 7 * usPerDay ∧
       resolveEpoch t0 weeks offset = t0 + weeks * usPerWeek + offset ∧
       ∀ epoch : Int, resolveEpoch t0 weeks (withinWeekOffset epoch t0 weeks) = epoch) := by
  intro sv t0 weeks offset _
  refine ⟨?_, rfl, ?_⟩
  · rw [resolveEpoch, resolveEpoch, usPerWeek]
    ring
  · intro epoch
    rw [resolveEpoch, withinWeekOffset]
    ring

/-- C3 witness: the GPS origin with week count 2100, offset zero, and a
concrete raw recording epoch. -/
theorem claim_C3_witness :
    resolveEpoch datetime19800106 (2100 + 1) 0 =
      resolveEpoch datetime19800106 2100 0 + 7 * usPerDay ∧
    resolveEpoch datetime19800106 2100 0 = datetime19800106 + 2100 * usPerWeek + 0 ∧
    resolveEpoch datetime19800106 2100
      (withinWeekOffset 1600000000000000 datetime19800106 2100) = 1600000000000000 :=
  let h := claim_C3 "G01" datetime19800106 2100 0 (by decide)
  ⟨h.1, h.2.1, h.2.2 1600000000000000⟩

/-! ### Claim C7 -/

/-- C7 counterexample: two distinct input file names receive the same
reference position; the script emits one hard-coded tuple for every file,
so no two files are ever emitted with different reference positions. -/
theorem claim_C7_counterexample :
    ("ESBC00DNK" : String) ≠ "MOJN00DNK" ∧
    ref_position "ESBC00DNK" = ref_position "MOJN00DNK" :=
  ⟨by decide, rfl⟩

/-- C7 amended: the reference position emitted alongside each output entry
is the single hard-coded constant (3628427.9118, 562059.0936, 5197872.2150),
identical for every input file; there is no filename-keyed table. -/
theorem claim_C7_amended :
    (∀ fp1 fp2 : String, ref_position fp1 = ref_position fp2) ∧
    (∀ fp : String, ref_position fp =
      ((36284279118 : ℚ) / 10000, (5620590936 : ℚ) / 10000, (51978722150 : ℚ) / 10000)) :=
  ⟨fun _ _ => rfl, fun _ => rfl⟩

/-! ### Claim C8 -/

/-- C8: the batch driver's output depends only on the revision
subdirectories named in `supported_rev` ("V2"/"V3"): filtering every other
revision out of the traversal leaves the result unchanged, and in particular
a "V1" subdirectory contributes nothing regardless of its files. -/
theorem claim_C8 :
    (∀ revs : List (String × List FileEnv),
       runRevs revs = runRevs (revs.filter (fun p => decide (p.1 ∈ supported_rev)))) ∧
    (∀ (fs : List FileEnv) (rest : List (String × List FileEnv)),
       runRevs (("V1", fs) :: rest) = runRevs rest) := by
  constructor
  · intro revs
    induction revs with
    | nil => rfl
    | cons p rest ih =>
      obtain ⟨rev, fs⟩ := p
      by_cases h : rev ∈ supported_rev
      · rw [List.filter_cons_of_pos (by simpa using h), runRevs, runRevs, if_pos h, if_pos h, ih]
      · rw [List.filter_cons_of_neg (by simpa using h), runRevs, if_neg h, ih]
  · intro fs rest
    rw [runRevs, if_neg (by decide)]

/-! ### Claim C4 -/

/-- C4 counterexample: the claim says an IOFailure aborts only the affected
file and a ComputationFailure only the affected entry.  In the model of the
script (which installs no exception handler) a failing `open` on file "A"
makes the whole batch return that error — the healthy file "B", which alone
would produce one output entry, is never processed — and a propagation
failure on one entry of "A" likewise aborts the entire run. -/
theorem claim_C4_counterexample :
    runRevs [("V2", [fileOpenFail, fileGood])] = Except.error PyErr.ioErr ∧
    (runRevs [("V2", [fileGood])]).map (fun l => l.map (fun p => (p.1, p.2.length))) =
      Except.ok [("B", 1)] ∧
    runRevs [("V2", [fileCompFail, fileGood])] = Except.error PyErr.compErr := by
  refine ⟨by decide, by decide, by decide⟩

/-- C4 amended: no failure is scoped: the first error raised while
processing any file makes the whole file loop return that error, so the
remaining files are not traversed and no partial results are produced; a
batch run fails atomically at the first ComputationFailure or IOFailure. -/
theorem claim_C4_amended :
    ∀ (fs1 : List FileEnv) (f : FileEnv) (fs2 : List FileEnv) (e : PyErr),
      processFile f = Except.error e →
      (∀ g ∈ fs1, ∃ o, processFile g = Except.ok o) →
      processFiles (fs1 ++ f :: fs2) = Except.error e := by
  intro fs1 f fs2 e hf hok
  induction fs1 with
  | nil =>
    rw [List.nil_append, processFiles, hf]
    rfl
  | cons g gs ih =>
    obtain ⟨o, ho⟩ := hok g (List.mem_cons_self _ _)
    rw [List.cons_append, processFiles, ho, bind_ok_eq,
      ih (fun x hx => hok x (List.mem_cons_of_mem _ hx))]
    rfl

/-- C4 witness: the abort lemma applied to the concrete failing file
followed by a healthy file. -/
theorem claim_C4_witness :
    processFiles [fileOpenFail, fileGood] = Except.error PyErr.ioErr :=
  claim_C4_amended [] fileOpenFail [fileGood] PyErr.ioErr (by decide)
    (fun g hg => absurd hg (List.not_mem_nil g))

/-! ### Claim C9 -/

/-- C9: whenever `form_entry` succeeds, the entry's "a" value is the square
of the record's sqrtA field, the "dn" value is the square of the record's
DeltaN field, and every other Keplerian and perturbation value is written
unchanged from the record; `pvPow2` is exact squaring on numbers. -/
theorem claim_C9 :
    (∀ (epoch : Int) (sv : String) (rp ec : Q3) (elev azi : ℚ) (r : KRecord)
       (prn : Int) (c0 : Char) (cst : Option Constellation) (w : Int)
       (vA vE vI0 vOm0 vM0 vOm vToe vDn vIdot vOmdot vCus vCuc vCis vCic vCrs vCrc : PVal),
       parsePrn sv = Except.ok prn →
       sv_first sv = Except.ok c0 →
       sv_to_constell (String.singleton c0) = Except.ok cst →
       kepler_weekcounter r = Except.ok (some w) →
       lookupF r "sqrtA" = some vA →
       lookupF r "Eccentricity" = some vE →
       lookupF r "Io" = some vI0 →
       lookupF r "Omega0" = some vOm0 →
       lookupF r "M0" = some vM0 →
       lookupF r "omega" = some vOm →
       lookupF r "Toe" = some vToe →
       lookupF r "DeltaN" = some vDn →
       lookupF r "IDOT" = some vIdot →
       lookupF r "OmegaDot" = some vOmdot →
       lookupF r "Cus" = some vCus →
       lookupF r "Cuc" = some vCuc →
       lookupF r "Cis" = some vCis →
       lookupF r "Cic" = some vCic →
       lookupF r "Crs" = some vCrs →
       lookupF r "Crc" = some vCrc →
       form_entry epoch sv rp ec elev azi r =
         Except.ok ⟨epoch, prn, cst, w, rp, ec, elev, azi,
           pvPow2 vA, vE, vI0, vOm0, vM0, vOm, vToe,
           pvPow2 vDn, vIdot, vOmdot, vCus, vCuc, vCis, vCic, vCrs, vCrc⟩) ∧
    (∀ q : ℚ, pvPow2 (PVal.num q) = PVal.num (q * q)) := by
  constructor
  · intro epoch sv rp ec elev azi r prn c0 cst w
      vA vE vI0 vOm0 vM0 vOm vToe vDn vIdot vOmdot vCus vCuc vCis vCic vCrs vCrc
      hprn hc0 hcst hw hA hE hI0 hOm0 hM0 hOm hToe hDn hIdot hOmdot hCus hCuc
      hCis hCic hCrs hCrc
    simp only [form_entry, getK, hprn, hc0, hcst, hw, hA, hE, hI0, hOm0, hM0,
      hOm, hToe, hDn, hIdot, hOmdot, hCus, hCuc, hCis, hCic, hCrs, hCrc,
      bind_ok_eq]
  · intro q
    rfl

/-- C9 witness: evaluation on the concrete complete record `recFull` for
satellite "G07". -/
theorem claim_C9_witness :
    form_entry 0 "G07" (1, 2, 3) (4, 5, 6) 0 0 recFull =
      Except.ok ⟨0, 7, some Constellation.GPS, 2100, (1, 2, 3), (4, 5, 6), 0, 0,
        pvPow2 (PVal.num 3), PVal.num 2, PVal.num 13, PVal.num 11, PVal.num 16,
        PVal.num 12, PVal.num 1, pvPow2 (PVal.num 10), PVal.num 15, PVal.num 14,
        PVal.num 9, PVal.num 8, PVal.num 6, PVal.num 4, PVal.num 7, PVal.num 5⟩ :=
  claim_C9.1 0 "G07" (1, 2, 3) (4, 5, 6) 0 0 recFull 7 'G'
    (some Constellation.GPS) 2100
    (PVal.num 3) (PVal.num 2) (PVal.num 13) (PVal.num 11) (PVal.num 16)
    (PVal.num 12) (PVal.num 1) (PVal.num 10) (PVal.num 15) (PVal.num 14)
    (PVal.num 9) (PVal.num 8) (PVal.num 6) (PVal.num 4) (PVal.num 7) (PVal.num 5)
    (by decide) (by decide) (by decide) (by decide) (by decide) (by decide)
    (by decide) (by decide) (by decide) (by decide) (by decide) (by decide)
    (by decide) (by decide) (by decide) (by decide) (by decide) (by decide)
    (by decide) (by decide)

/-! ### Claim C10 -/

/-- C10: `kepler_weekcounter` takes no constellation argument; it probes the
fixed priority order "GPSWeek", "GALWeek", "BDTWeek", returns the first
present field truncated to an integer, and the week value emitted by
`form_entry` is exactly this resolved counter (the same value the driver
uses for time resolution). -/
theorem claim_C10 :
    (∀ (r : KRecord) (q : ℚ), lookupF r "GPSWeek" = some (PVal.num q) →
       kepler_weekcounter r = Except.ok (some (ratTrunc q))) ∧
    (∀ (r : KRecord) (q : ℚ), lookupF r "GPSWeek" = none →
       lookupF r "GALWeek" = some (PVal.num q) →
       kepler_weekcounter r = Except.ok (some (ratTrunc q))) ∧
    (∀ (r : KRecord) (q : ℚ), lookupF r "GPSWeek" = none →
       lookupF r "GALWeek" = none → lookupF r "BDTWeek" = some (PVal.num q) →
       kepler_weekcounter r = Except.ok (some (ratTrunc q))) ∧
    (∀ r : KRecord, lookupF r "GPSWeek" = none → lookupF r "GALWeek" = none →
       lookupF r "BDTWeek" = none → kepler_weekcounter r = Except.ok none) ∧
    (∀ (epoch : Int) (sv : String) (rp ec : Q3) (elev azi : ℚ) (r : KRecord)
       (ent : Entry),
       form_entry epoch sv rp ec elev azi r = Except.ok ent →
       kepler_weekcounter r = Except.ok (some ent.week)) := by
  refine ⟨?_, ?_, ?_, ?_, ?_⟩
  · intro r q h1
    rw [kepler_weekcounter, weekKeyOrder, weekcounterGo, h1]
  · intro r q h1 h2
    rw [kepler_weekcounter, weekKeyOrder, weekcounterGo, h1, weekcounterGo, h2]
  · intro r q h1 h2 h3
    rw [kepler_weekcounter, weekKeyOrder, weekcounterGo, h1, weekcounterGo, h2,
      weekcounterGo, h3]
  · intro r h1 h2 h3
    rw [kepler_weekcounter, weekKeyOrder, weekcounterGo, h1, weekcounterGo, h2,
      weekcounterGo, h3, weekcounterGo]
  · intro epoch sv rp ec elev azi r ent h
    rw [form_entry] at h
    cases hp : parsePrn sv with
    | error e => simp only [hp, bind_err_eq] at h; exact Except.noConfusion h
    | ok prn =>
    simp only [hp, bind_ok_eq] at h
    cases hc : sv_first sv with
    | error e => simp only [hc, bind_err_eq] at h; exact Except.noConfusion h
    | ok c0 =>
    simp only [hc, bind_ok_eq] at h
    cases hcs : sv_to_constell (String.singleton c0) with
    | error e => simp only [hcs, bind_err_eq] at h; exact Except.noConfusion h
    | ok cst =>
    simp only [hcs, bind_ok_eq] at h
    cases hw : kepler_weekcounter r with
    | error e => simp only [hw, bind_err_eq] at h; exact Except.noConfusion h
    | ok wOpt =>
    simp only [hw, bind_ok_eq] at h
    cases wOpt with
    | none => simp only [bind_err_eq] at h; exact Except.noConfusion h
    | some w =>
    simp only [bind_ok_eq] at h
    cases hA : getK r "sqrtA" with
    | error e => simp only [hA, bind_err_eq] at h; exact Except.noConfusion h
    | ok vA =>
    simp only [hA, bind_ok_eq] at h
    cases hE : getK r "Eccentricity" with
    | error e => simp only [hE, bind_err_eq] at h; exact Except.noConfusion h
    | ok vE =>
    simp only [hE, bind_ok_eq] at h
    cases hI0 : getK r "Io" with
    | error e => simp only [hI0, bind_err_eq] at h; exact Except.noConfusion h
    | ok vI0 =>
    simp only [hI0, bind_ok_eq] at h
    cases hOm0 : getK r "Omega0" with
    | error e => simp only [hOm0, bind_err_eq] at h; exact Except.noConfusion h
    | ok vOm0 =>
    simp only [hOm0, bind_ok_eq] at h
    cases hM0 : getK r "M0" with
    | error e => simp only [hM0, bind_err_eq] at h; exact Except.noConfusion h
    | ok vM0 =>
    simp only [hM0, bind_ok_eq] at h
    cases hOm : getK r "omega" with
    | error e => simp only [hOm, bind_err_eq] at h; exact Except.noConfusion h
    | ok vOm =>
    simp only [hOm, bind_ok_eq] at h
    cases hToe : getK r "Toe" with
    | error e => simp only [hToe, bind_err_eq] at h; exact Except.noConfusion h
    | ok vToe =>
    simp only [hToe, bind_ok_eq] at h
    cases hDn : getK r "DeltaN" with
    | error e => simp only [hDn, bind_err_eq] at h; exact Except.noConfusion h
    | ok vDn =>
    simp only [hDn, bind_ok_eq] at h
    cases hId : getK r "IDOT" with
    | error e => simp only [hId, bind_err_eq] at h; exact Except.noConfusion h
    | ok vId =>
    simp only [hId, bind_ok_eq] at h
    cases hOd : getK r "OmegaDot" with
    | error e => simp only [hOd, bind_err_eq] at h; exact Except.noConfusion h
    | ok vOd =>
    simp only [hOd, bind_ok_eq] at h
    cases hCus : getK r "Cus" with
    | error e => simp only [hCus, bind_err_eq] at h; exact Except.noConfusion h
    | ok vCus =>
    simp only [hCus, bind_ok_eq] at h
    cases hCuc : getK r "Cuc" with
    | error e => simp only [hCuc, bind_err_eq] at h; exact Except.noConfusion h
    | ok vCuc =>
    simp only [hCuc, bind_ok_eq] at h
    cases hCis : getK r "Cis" with
    | error e => simp only [hCis, bind_err_eq] at h; exact Except.noConfusion h
    | ok vCis =>
    simp only [hCis, bind_ok_eq] at h
    cases hCic : getK r "Cic" with
    | error e => simp only [hCic, bind_err_eq] at h; exact Except.noConfusion h
    | ok vCic =>
    simp only [hCic, bind_ok_eq] at h
    cases hCrs : getK r "Crs" with
    | error e => simp only [hCrs, bind_err_eq] at h; exact Except.noConfusion h
    | ok vCrs =>
    simp only [hCrs, bind_ok_eq] at h
    cases hCrc : getK r "Crc" with
    | error e => simp only [hCrc, bind_err_eq] at h; exact Except.noConfusion h
    | ok vCrc =>
    simp only [hCrc, bind_ok_eq] at h
    injection h with hent
    subst hent
    rfl

/-- C10 witness: the priority order and the truncation observed on concrete
records (the record carrying both GPS and Galileo week fields resolves to
the truncated GPS value), and the emitted week of a concrete entry. -/
theorem claim_C10_witness :
    kepler_weekcounter (("GPSWeek", PVal.num (41 / 2)) :: recGALonly) =
      Except.ok (some (ratTrunc (41 / 2))) ∧
    kepler_weekcounter recGALonly = Except.ok (some (ratTrunc 100)) :=
  ⟨claim_C10.1 (("GPSWeek", PVal.num (41 / 2)) :: recGALonly) (41 / 2) rfl,
   claim_C10.2.1 recGALonly 100 rfl rfl⟩
